import Mathlib

/-!
Verification development for the reddit-crawler repository.

The repository is a small Python pipeline: a configuration store
(`src/config.py`), a Reddit content client (`src/reddit_client.py`), a
language-model summarizer (`src/summarizer.py`), a JSON file storage layer
(`src/storage.py`) and a CLI front end (`src/main.py`).

This file shallowly embeds the data model and the operations of those
components:

* Python/JSON values are embedded as the inductive `JVal`; Python dicts are
  association lists (`AList`) with Python-dict lookup/assignment semantics
  (`dlookup` / `dinsert`: update the existing key in place, else append).
* The filesystem is a map from path to file content; file content is
  `Option JVal` (`none` = the file exists but cannot be read or parsed as
  JSON, `some doc` = it parses to the JSON document `doc`); an absent entry
  means the file does not exist.  Write failures are modelled by an explicit
  `writeOk` flag, since Python catches and logs them.
* External clients (the Reddit API via praw and the Gemini language model)
  are oracles passed as function arguments; a call that raises is an
  `Except.error` result of the oracle.
* Fallible code (Python code that can raise) returns `Except String`.
-/

namespace RedditCrawler

/-- JSON / Python values as manipulated by the crawler.  Floats are modelled
as exact decimals `m / 10 ^ e` (the only floats the embedded code itself
constructs come from parsing decimal digit strings; float rounding is not
modelled). -/
inductive JVal where
  | null : JVal
  | bool : Bool → JVal
  | int : Int → JVal
  | float : (m : Int) → (e : Nat) → JVal
  | str : String → JVal
  | arr : List JVal → JVal
  | obj : List (String × JVal) → JVal

/-- A Python dict with string keys, as an association list. -/
abbrev AList := List (String × JVal)

/-- Python dict lookup `d[k]` / `d.get(k)`: first matching key. -/
def dlookup : AList → String → Option JVal
  | [], _ => none
  | (k', v) :: rest, k => if k' = k then some v else dlookup rest k

/-- Python dict assignment `d[k] = v`: update the existing key in place,
otherwise append the new binding at the end (insertion order preserved). -/
def dinsert : AList → String → JVal → AList
  | [], k, v => [(k, v)]
  | (k', v') :: rest, k, v =>
      if k' = k then (k, v) :: rest else (k', v') :: dinsert rest k v

/-- Whether a value is a Python dict / JSON object. -/
def JVal.isObj : JVal → Bool
  | .obj _ => true
  | _ => false

/-- `l` has two bindings for the same key (impossible for a real Python
dict). -/
def keyDup : AList → Bool
  | [] => false
  | (k, _) :: rest => rest.any (fun kv => kv.1 == k) || keyDup rest

theorem dlookup_dinsert_self (l : AList) (k : String) (v : JVal) :
    dlookup (dinsert l k v) k = some v := by
  induction l with
  | nil => simp [dinsert, dlookup]
  | cons kv rest ih =>
      by_cases h : kv.1 = k
      · simp [dinsert, dlookup, h]
      · simpa [dinsert, dlookup, h] using ih

theorem dlookup_dinsert_ne (l : AList) (k k' : String) (v : JVal)
    (h : k' ≠ k) : dlookup (dinsert l k' v) k = dlookup l k := by
  induction l with
  | nil => simp [dinsert, dlookup, h]
  | cons kv rest ih =>
      by_cases hk : kv.1 = k'
      · simp [dinsert, dlookup, hk, h]
      · by_cases hk2 : kv.1 = k
        · have h2 : k ≠ k' := fun he => h (Eq.symm he)
          simp [dinsert, dlookup, hk, hk2, h2]
        · simpa [dinsert, dlookup, hk, hk2] using ih

theorem dlookup_eq_none_of_any_false (l : AList) (k : String)
    (h : l.any (fun kv => kv.1 == k) = false) : dlookup l k = none := by
  induction l with
  | nil => rfl
  | cons kv rest ih =>
      simp only [List.any_cons, Bool.or_eq_false_iff] at h
      have h1 : kv.1 ≠ k := by
        intro he
        simp [he] at h
      simp [dlookup, h1, ih h.2]

/-! ### Python string primitives

The Lean core `String` functions (`splitOn`, `toLower`, `replace`, `trim`,
`take`, `startsWith`, ...) are implemented with byte positions and do not
reduce inside the kernel, so the Python string operations used by the
crawler are modelled directly over the character list `String.data`. -/

/-- Python `s.split('.')`. -/
def pySplitDot (s : String) : List String :=
  go s.data []
where
  go : List Char → List Char → List String
    | [], acc => [String.mk acc.reverse]
    | c :: rest, acc =>
        if c = '.' then String.mk acc.reverse :: go rest []
        else go rest (c :: acc)

/-- Python `s.lower()`. -/
def pyLower (s : String) : String := String.mk (s.data.map Char.toLower)

/-- Python `s.replace('.', '')`. -/
def pyRemoveDots (s : String) : String :=
  String.mk (s.data.filter (fun c => c ≠ '.'))

/-- Starts of the runs of ten consecutive Unicode decimal digits
(`Numeric_Type=Decimal`, category Nd).  Within each run the decimal value of
a character is its offset from the run start.  The 66 runs exactly cover the
660 decimal digits of Unicode 14.0.0, the character database of the CPython
runtime (3.11) the crawler runs on. -/
def decimalRunStarts : List Nat :=
  [48, 1632, 1776, 1984, 2406, 2534, 2662, 2790,
   2918, 3046, 3174, 3302, 3430, 3558, 3664, 3792,
   3872, 4160, 4240, 6112, 6160, 6470, 6608, 6784,
   6800, 6992, 7088, 7232, 7248, 42528, 43216, 43264,
   43472, 43504, 43600, 44016, 65296, 66720, 68912, 69734,
   69872, 69942, 70096, 70384, 70736, 70864, 71248, 71360,
   71472, 71904, 72016, 72784, 73040, 73120, 92768, 92864,
   93008, 120782, 120792, 120802, 120812, 120822, 123200, 123632,
   125264, 130032]

/-- Code-point intervals (inclusive) of the 128 characters with
`Numeric_Type=Digit` but no decimal value in Unicode 14.0.0 — superscripts
and subscripts, circled and parenthesized digits, and a few script-specific
digits.  `str.isdigit()` accepts them, but `int()` and `float()` reject
them with `ValueError`. -/
def digitOnlyRanges : List (Nat × Nat) :=
  [(178, 179), (185, 185), (4969, 4977), (6618, 6618),
   (8304, 8304), (8308, 8313), (8320, 8329), (9312, 9320),
   (9332, 9340), (9352, 9360), (9450, 9450), (9461, 9469),
   (9471, 9471), (10102, 10110), (10112, 10120), (10122, 10130),
   (68160, 68163), (69216, 69224), (69714, 69722), (127232, 127242)]

/-- The decimal value of a Unicode decimal digit, if any
(CPython's `Py_UNICODE_TODECIMAL`, which `int()` and `float()` use to
transcode digits). -/
def pyCharDecimal (c : Char) : Option Nat :=
  (decimalRunStarts.find?
      (fun s => decide (s ≤ c.toNat) && decide (c.toNat < s + 10))).map
    (fun s => c.toNat - s)

/-- Python's per-character `isdigit`: `Numeric_Type` is Decimal or Digit. -/
def pyCharIsDigit (c : Char) : Bool :=
  (pyCharDecimal c).isSome ||
  digitOnlyRanges.any
    (fun r => decide (r.1 ≤ c.toNat) && decide (c.toNat ≤ r.2))

/-- Python `s.isdigit()`: non-empty and every character a Unicode digit. -/
def pyIsdigit (s : String) : Bool :=
  !s.data.isEmpty && s.data.all pyCharIsDigit

/-- Python whitespace for `str.strip()`. -/
def isPySpace (c : Char) : Bool :=
  c = ' ' || c = '\t' || c = '\n' || c = '\r' ||
  c = '\x0b' || c = '\x0c'

/-- Python `s.strip()`. -/
def pyStrip (s : String) : String :=
  String.mk (((s.data.dropWhile isPySpace).reverse.dropWhile isPySpace).reverse)

/-- Python `s[:n]` on a string. -/
def pyStrTake (s : String) (n : Nat) : String := String.mk (s.data.take n)

/-- Whether the string starts with the character `c`. -/
def strStartsWithChar (s : String) (c : Char) : Bool :=
  match s.data with
  | [] => false
  | c2 :: _ => c2 = c

/-- Whether the string ends with the character `c`. -/
def strEndsWithChar (s : String) (c : Char) : Bool :=
  match s.data.getLast? with
  | none => false
  | some c2 => c2 = c

mutual

/-- `Config._merge_configs` (src/config.py lines 167-177): start from a copy
of `default` and fold over the items of `user`; when a key is present in the
accumulated dict and both values are dicts (`mergeVal`), merge recursively,
otherwise the user value overwrites. -/
def mergeConfigs : AList → AList → AList
  | merged, [] => merged
  | merged, (k, v) :: rest =>
      mergeConfigs (dinsert merged k (mergeVal (dlookup merged k) v)) rest
termination_by _merged u => sizeOf u
decreasing_by all_goals (simp_wf; try omega)

/-- The value written for one user key: recursive merge when the existing
value and the user value are both dicts, else the user value. -/
def mergeVal : Option JVal → JVal → JVal
  | some (JVal.obj dsub), JVal.obj usub => JVal.obj (mergeConfigs dsub usub)
  | _, v => v
termination_by _o v => sizeOf v
decreasing_by all_goals (simp_wf; try omega)

end

theorem mergeConfigs_nil (d : AList) : mergeConfigs d [] = d := by
  rw [mergeConfigs.eq_def]

theorem mergeConfigs_cons (d : AList) (k : String) (v : JVal) (rest : AList) :
    mergeConfigs d ((k, v) :: rest) =
      mergeConfigs (dinsert d k (mergeVal (dlookup d k) v)) rest := by
  conv_lhs => rw [mergeConfigs.eq_def]

theorem mergeVal_obj (dd uu : AList) :
    mergeVal (some (JVal.obj dd)) (JVal.obj uu)
      = JVal.obj (mergeConfigs dd uu) := by
  rw [mergeVal.eq_def]

theorem mergeVal_none (v : JVal) : mergeVal none v = v := by
  rw [mergeVal.eq_def]

theorem mergeVal_right_not_obj (o : Option JVal) (v : JVal)
    (h : v.isObj = false) : mergeVal o v = v := by
  rw [mergeVal.eq_def]
  split
  next => simp [JVal.isObj] at h
  next => rfl

/-- A key absent from the user dict survives the merge with the value it had
in the defaults. -/
theorem merge_lookup_not_mem (u : AList) : ∀ (d : AList) (k : String),
    dlookup u k = none → dlookup (mergeConfigs d u) k = dlookup d k := by
  induction u with
  | nil => intro d k _; simp [mergeConfigs_nil]
  | cons kv rest ih =>
      intro d k h
      obtain ⟨k', v⟩ := kv
      have hne : k' ≠ k := by
        intro he
        simp [dlookup, he] at h
      have hrest : dlookup rest k = none := by
        simpa [dlookup, hne] using h
      rw [mergeConfigs_cons, ih _ k hrest]
      exact dlookup_dinsert_ne _ _ _ _ hne

/-- Lookup of a key present in a duplicate-free user dict after the merge:
the merged value recurses when both sides are dicts (`mergeVal`) and is the
user value otherwise. -/
theorem merge_lookup_mem (u : AList) : ∀ (d : AList) (k : String) (w : JVal),
    keyDup u = false → dlookup u k = some w →
    dlookup (mergeConfigs d u) k = some (mergeVal (dlookup d k) w) := by
  induction u with
  | nil => intro d k w _ h; simp [dlookup] at h
  | cons kv rest ih =>
      intro d k w hnd h
      obtain ⟨k', v⟩ := kv
      simp only [keyDup, Bool.or_eq_false_iff] at hnd
      by_cases hk : k' = k
      · have hv : v = w := by simpa [dlookup, hk] using h
        have hrest : dlookup rest k = none := by
          rw [← hk]
          exact dlookup_eq_none_of_any_false rest k' hnd.1
        rw [mergeConfigs_cons, merge_lookup_not_mem rest _ k hrest, hk, hv,
          dlookup_dinsert_self]
      · have hrest : dlookup rest k = some w := by
          simpa [dlookup, hk] using h
        rw [mergeConfigs_cons, ih _ k w hnd.2 hrest,
          dlookup_dinsert_ne d k k' _ hk]

/-- When the two sides are not both dicts, the merge keeps the user value. -/
theorem mergeVal_not_both_obj (o : Option JVal) (v : JVal)
    (h : ∀ dd uu, o = some (JVal.obj dd) → v = JVal.obj uu → False) :
    mergeVal o v = v := by
  rw [mergeVal.eq_def]
  split
  next dd uu => exact (h dd uu rfl rfl).elim
  next => rfl

/-! ## Configuration store (src/config.py) -/

/-- The compiled-in defaults `Config.default_config`
(src/config.py lines 13-34). -/
def default_config : AList :=
  [("reddit", JVal.obj
      [("default_limit", JVal.int 10),
       ("default_sort", JVal.str "hot"),
       ("user_agent", JVal.str "RedditCrawler/1.0")]),
   ("summarizer", JVal.obj
      [("model", JVal.str "gemini-2.5-pro"),
       ("include_comments", JVal.bool false)]),
   ("storage", JVal.obj
      [("data_directory", JVal.str "data"),
       ("auto_save", JVal.bool true),
       ("filename_format", JVal.str "reddit_posts_%Y%m%d_%H%M%S")]),
   ("filters", JVal.obj
      [("min_score", JVal.int 0),
       ("min_comments", JVal.int 0),
       ("max_age_days", JVal.int 30),
       ("exclude_nsfw", JVal.bool true)])]

/-- The navigation loop of `Config.get` (src/config.py lines 75-83):
`value = value[key]` for each segment.  `none` models the `KeyError`
(segment absent from a dict) or `TypeError` (indexing a non-dict with a
string key) that the source catches. -/
def getPath : JVal → List String → Option JVal
  | v, [] => some v
  | v, k :: rest =>
      match v with
      | JVal.obj d => (dlookup d k).bind (fun v' => getPath v' rest)
      | _ => none

theorem getPath_obj_cons (d : AList) (k : String) (rest : List String) :
    getPath (JVal.obj d) (k :: rest)
      = (dlookup d k).bind (fun v' => getPath v' rest) := rfl

theorem getPath_not_obj (v : JVal) (k : String) (rest : List String)
    (h : v.isObj = false) : getPath v (k :: rest) = none := by
  cases v <;> first | rfl | simp [JVal.isObj] at h

/-- `Config.get` (src/config.py lines 64-83): split the dotted path, walk
the nested dicts, return `default` when any step raises. -/
def configGet (config : AList) (key_path : String) (default : JVal) : JVal :=
  (getPath (JVal.obj config) (pySplitDot key_path)).getD default

/-- The navigation-and-assignment of `Config.set` (src/config.py
lines 93-103): walk all but the last segment, creating empty dicts for
absent keys; assign the value at the last segment.  An intermediate segment
that resolves to a non-dict value makes the Python code raise `TypeError`
(either at `key not in config` or at the item assignment), and an empty
segment list would raise `IndexError` at `keys[-1]`; neither is caught. -/
def setPath (c : AList) : List String → JVal → Except String AList
  | [], _ => .error "IndexError"
  | [k], v => .ok (dinsert c k v)
  | k :: k2 :: rest, v =>
      match dlookup c k with
      | some (JVal.obj sub) =>
          match setPath sub (k2 :: rest) v with
          | .ok sub2 => .ok (dinsert c k (JVal.obj sub2))
          | .error e => .error e
      | some _ => .error "TypeError"
      | none =>
          match setPath [] (k2 :: rest) v with
          | .ok sub2 => .ok (dinsert c k (JVal.obj sub2))
          | .error e => .error e

/-- A filesystem: path to file content.  `none` = the file does not exist;
`some none` = it exists but reading/parsing it as JSON fails; `some (some
doc)` = it holds the JSON document `doc`. -/
abbrev FS := String → Option (Option JVal)

/-- Writing the JSON document `doc` at `p`. -/
def fsWrite (fs : FS) (p : String) (doc : JVal) : FS :=
  fun q => if q = p then some (some doc) else fs q

/-- `Config.save_config` (src/config.py lines 54-62): dump the whole config
dict to the config file; a write failure (modelled by `writeOk = false`) is
caught and logged, leaving the filesystem unchanged. -/
def save_config (writeOk : Bool) (config : AList) (fs : FS)
    (config_file : String) : FS :=
  if writeOk then fsWrite fs config_file (JVal.obj config) else fs

/-- `Config.set` (src/config.py lines 85-104): set via the dotted path, then
immediately `save_config()`. -/
def configSet (writeOk : Bool) (config : AList) (fs : FS)
    (config_file : String) (key_path : String) (v : JVal) :
    Except String (AList × FS) :=
  match setPath config (pySplitDot key_path) v with
  | .error e => .error e
  | .ok c' => .ok (c', save_config writeOk c' fs config_file)

/-- `Config.load_config` (src/config.py lines 37-52): if the config file
exists, parse it and merge it over the defaults; any exception while
reading, parsing, or merging (e.g. the file parses to a non-dict and
`user.items()` raises) is caught and the defaults are returned without
touching the file.  If the file does not exist, the defaults are written to
it (`save_config`) and returned. -/
def load_config (writeOk : Bool) (fs : FS) (config_file : String) :
    AList × FS :=
  match fs config_file with
  | some (some (JVal.obj user)) => (mergeConfigs default_config user, fs)
  | some (some _) => (default_config, fs)
  | some none => (default_config, fs)
  | none => (default_config, save_config writeOk default_config fs config_file)

/-- Spec-side description of `get`'s success: the value `v` is stored at the
segment path, resolving every segment through nested mappings. -/
inductive Stored : JVal → List String → JVal → Prop where
  | nil (v : JVal) : Stored v [] v
  | cons {d : AList} {k : String} {rest : List String} {w v : JVal}
      (hk : dlookup d k = some w) (hrest : Stored w rest v) :
      Stored (JVal.obj d) (k :: rest) v

theorem getPath_eq_some_iff_Stored (keys : List String) :
    ∀ (j v : JVal), getPath j keys = some v ↔ Stored j keys v := by
  induction keys with
  | nil =>
      intro j v
      constructor
      · intro h
        rw [show getPath j [] = some j from rfl, Option.some.injEq] at h
        subst h
        exact Stored.nil j
      · intro h
        cases h
        rfl
  | cons k rest ih =>
      intro j v
      constructor
      · intro h
        cases j with
        | obj d =>
            rw [getPath_obj_cons, Option.bind_eq_some] at h
            obtain ⟨w, hw, hrest⟩ := h
            exact Stored.cons hw ((ih w v).mp hrest)
        | null => rw [getPath_not_obj JVal.null k rest rfl] at h; cases h
        | bool b => rw [getPath_not_obj (JVal.bool b) k rest rfl] at h; cases h
        | int n => rw [getPath_not_obj (JVal.int n) k rest rfl] at h; cases h
        | float m e =>
            rw [getPath_not_obj (JVal.float m e) k rest rfl] at h; cases h
        | str s => rw [getPath_not_obj (JVal.str s) k rest rfl] at h; cases h
        | arr xs => rw [getPath_not_obj (JVal.arr xs) k rest rfl] at h; cases h
      · intro h
        cases h with
        | cons hk hrest =>
            rw [getPath_obj_cons, Option.bind_eq_some]
            exact ⟨_, hk, (ih _ v).mpr hrest⟩

/-- After a successful `setPath`, reading the same path back yields the
value that was set. -/
theorem getPath_setPath (keys : List String) :
    ∀ (c c' : AList) (v : JVal), setPath c keys v = .ok c' →
      getPath (JVal.obj c') keys = some v := by
  induction keys with
  | nil => intro c c' v h; simp [setPath] at h
  | cons k rest ih =>
      intro c c' v h
      cases rest with
      | nil =>
          simp only [setPath, Except.ok.injEq] at h
          subst h
          rw [getPath_obj_cons, dlookup_dinsert_self]
          rfl
      | cons k2 rs =>
          rcases hl : dlookup c k with _ | w
          · simp only [setPath, hl] at h
            rcases hs : setPath [] (k2 :: rs) v with e | sub2
            · simp only [hs] at h; cases h
            · simp only [hs, Except.ok.injEq] at h
              subst h
              rw [getPath_obj_cons, dlookup_dinsert_self]
              exact ih _ _ _ hs
          · cases w with
            | obj sub =>
                simp only [setPath, hl] at h
                rcases hs : setPath sub (k2 :: rs) v with e | sub2
                · simp only [hs] at h; cases h
                · simp only [hs, Except.ok.injEq] at h
                  subst h
                  rw [getPath_obj_cons, dlookup_dinsert_self]
                  exact ih _ _ _ hs
            | null => simp only [setPath, hl] at h; cases h
            | bool b => simp only [setPath, hl] at h; cases h
            | int n => simp only [setPath, hl] at h; cases h
            | float m e => simp only [setPath, hl] at h; cases h
            | str s => simp only [setPath, hl] at h; cases h
            | arr xs => simp only [setPath, hl] at h; cases h

/-- Duplicate-free keys along the dict spine that a segment path traverses
(trivially true for dicts that come from real Python dicts). -/
def wfAlong (u : AList) : List String → Bool
  | [] => true
  | k :: rest =>
      !(keyDup u) &&
      (match dlookup u k with
       | some (JVal.obj uu) => wfAlong uu rest
       | _ => true)

theorem obj_of_isObj (v : JVal) (h : v.isObj = true) :
    ∃ fs, v = JVal.obj fs := by
  cases v <;> simp [JVal.isObj] at h ⊢

theorem mergeVal_some_not_obj (dv w : JVal) (h : dv.isObj = false) :
    mergeVal (some dv) w = w := by
  apply mergeVal_not_both_obj
  intro dd uu h1 h2
  rw [Option.some.injEq] at h1
  subst h1
  simp [JVal.isObj] at h

/-- Merging defaults under a user dict preserves every stored non-dict
value: the path resolves to the same leaf after the merge. -/
theorem getPath_merge (keys : List String) :
    ∀ (d u : AList) (v : JVal), wfAlong u keys = true →
      getPath (JVal.obj u) keys = some v → v.isObj = false →
      getPath (JVal.obj (mergeConfigs d u)) keys = some v := by
  induction keys with
  | nil =>
      intro d u v _ h hobj
      cases h
      simp [JVal.isObj] at hobj
  | cons k rest ih =>
      intro d u v hwf h hobj
      simp only [getPath, Option.bind_eq_some] at h
      obtain ⟨w, hw, hrest⟩ := h
      simp only [wfAlong, Bool.and_eq_true, Bool.not_eq_true'] at hwf
      have hmerge := merge_lookup_mem u d k w hwf.1 hw
      by_cases hwo : w.isObj = true
      · obtain ⟨uu, rfl⟩ := obj_of_isObj w hwo
        have hwfsub : wfAlong uu rest = true := by
          have h2 := hwf.2
          rw [hw] at h2
          exact h2
        rcases hd : dlookup d k with _ | dv
        · rw [hd, mergeVal_none] at hmerge
          simp only [getPath, Option.bind_eq_some]
          exact ⟨_, hmerge, hrest⟩
        · by_cases hdo : dv.isObj = true
          · obtain ⟨dd, rfl⟩ := obj_of_isObj dv hdo
            rw [hd, mergeVal_obj] at hmerge
            simp only [getPath, Option.bind_eq_some]
            exact ⟨_, hmerge, ih dd uu v hwfsub hrest hobj⟩
          · rw [hd, mergeVal_some_not_obj dv _ (Bool.eq_false_iff.mpr hdo)]
              at hmerge
            simp only [getPath, Option.bind_eq_some]
            exact ⟨_, hmerge, hrest⟩
      · rw [mergeVal_right_not_obj _ _ (Bool.eq_false_iff.mpr hwo)] at hmerge
        simp only [getPath, Option.bind_eq_some]
        exact ⟨_, hmerge, hrest⟩

/-! ## Storage (src/storage.py) -/

/-- `os.path.join` for the two-argument uses in storage.py. -/
def joinPath (a b : String) : String :=
  if strStartsWithChar b '/' then b
  else if a = "" then b
  else if strEndsWithChar a '/' then a ++ b
  else a ++ "/" ++ b

/-- `DataStorage.save_posts` (src/storage.py lines 16-42): default filename
`reddit_posts_<timestamp>.json`, dump the list as a JSON array (2-space
indent, `ensure_ascii=False`, so all field values including non-ASCII text
are stored exactly), return the written path; on a write failure (modelled
by `writeOk = false`) return the empty string and leave the filesystem
unchanged. -/
def save_posts (writeOk : Bool) (data_dir : String) (fs : FS)
    (posts : List JVal) (filename : Option String) (now : String) :
    String × FS :=
  let fname := filename.getD ("reddit_posts_" ++ now ++ ".json")
  let filepath := joinPath data_dir fname
  if writeOk then (filepath, fsWrite fs filepath (JVal.arr posts))
  else ("", fs)

/-- `DataStorage.load_posts` (src/storage.py lines 44-65): parse the JSON
file and return whatever `json.load` yields (the code does not check it is a
list; `len()` succeeds on arrays, objects and strings).  On a missing or
unreadable file, or when `len()` raises `TypeError`, the exception is caught
and the empty list is returned. -/
def load_posts (fs : FS) (data_dir : String) (filename : String) : JVal :=
  match fs (joinPath data_dir filename) with
  | some (some doc) =>
      match doc with
      | JVal.arr xs => JVal.arr xs
      | JVal.obj fsd => JVal.obj fsd
      | JVal.str s => JVal.str s
      | _ => JVal.arr []
  | _ => JVal.arr []

/-! ## Reddit content client (src/reddit_client.py) -/

/-- A raw praw comment object as seen by `get_post_comments` after
`replace_more(limit=0)`: `body = none` models a comment-like object without
a `body` attribute (e.g. a removed placeholder). -/
structure RawComment where
  body : Option JVal
  id : JVal
  score : JVal
  created_utc : JVal
  author : Option String

/-- The dict built for one kept comment (src/reddit_client.py
lines 125-131). -/
def commentData (c : RawComment) (b : JVal) : AList :=
  [("id", c.id),
   ("body", b),
   ("score", c.score),
   ("created_utc", c.created_utc),
   ("author", JVal.str (c.author.getD "[deleted]"))]

/-- `RedditClient.get_post_comments` (src/reddit_client.py lines 107-138):
the `client` oracle models `reddit.submission(id=post_id)` followed by
`comments.replace_more(limit=0)` and `comments.list()`; an `Except.error`
is any exception from the underlying client.  The flattened list is
truncated to `limit` first, then comment-like objects lacking a `body`
attribute are skipped; on any client error the exception is caught, logged
and the empty list returned. -/
def get_post_comments (client : String → Except String (List RawComment))
    (post_id : String) (limit : Nat) : List AList :=
  match client post_id with
  | .error _ => []
  | .ok raw => (raw.take limit).filterMap (fun c => c.body.map (commentData c))

/-! ## Summarizer (src/summarizer.py) -/

/-- Rendering of the exact decimal `m / 10 ^ e` as Python `str` renders the
corresponding float value. -/
def decimalStr (m : Int) (e : Nat) : String :=
  let sgn := if m < 0 then "-" else ""
  let ds : List Char := (toString m.natAbs).data
  let ds := if ds.length < e + 1 then
      List.replicate (e + 1 - ds.length) '0' ++ ds
    else ds
  if e = 0 then sgn ++ String.mk ds ++ ".0"
  else sgn ++ String.mk (ds.take (ds.length - e)) ++ "." ++
    String.mk (ds.drop (ds.length - e))

mutual

/-- Python `repr` (used by `str` for the elements of containers). -/
def pyRepr : JVal → String
  | JVal.null => "None"
  | JVal.bool true => "True"
  | JVal.bool false => "False"
  | JVal.int n => toString n
  | JVal.float m e => decimalStr m e
  | JVal.str s => "\x27" ++ s ++ "\x27"
  | JVal.arr xs => "[" ++ pyReprItems xs ++ "]"
  | JVal.obj fields => "\x7b" ++ pyReprFields fields ++ "\x7d"
termination_by v => sizeOf v

def pyReprItems : List JVal → String
  | [] => ""
  | [x] => pyRepr x
  | x :: y :: rest => pyRepr x ++ ", " ++ pyReprItems (y :: rest)
termination_by xs => sizeOf xs

def pyReprFields : List (String × JVal) → String
  | [] => ""
  | [(k, v)] => "\x27" ++ k ++ "\x27: " ++ pyRepr v
  | (k, v) :: kv :: rest =>
      "\x27" ++ k ++ "\x27: " ++ pyRepr v ++ ", " ++ pyReprFields (kv :: rest)
termination_by l => sizeOf l

end

/-- Python `str`, as used by f-string interpolation. -/
def pyStr : JVal → String
  | JVal.str s => s
  | v => pyRepr v

/-- Python truthiness of a value. -/
def pyTruthy : JVal → Bool
  | JVal.null => false
  | JVal.bool b => b
  | JVal.int n => n != 0
  | JVal.float m _ => m != 0
  | JVal.str s => !s.isEmpty
  | JVal.arr xs => !xs.isEmpty
  | JVal.obj fields => !fields.isEmpty

/-- The message of the `KeyError` raised by `d[k]` on a missing key. -/
def keyErrorMsg (k : String) : String := "KeyError: \x27" ++ k ++ "\x27"

/-- Python `d[k]` on a dict: the value, or a raised `KeyError`. -/
def keyGet (d : AList) (k : String) : Except String JVal :=
  match dlookup d k with
  | some v => .ok v
  | none => .error (keyErrorMsg k)

/-- Python `v[:n]`: slicing is defined for strings and lists and raises
`TypeError` otherwise. -/
def pySlice (v : JVal) (n : Nat) : Except String JVal :=
  match v with
  | JVal.str s => .ok (JVal.str (pyStrTake s n))
  | JVal.arr xs => .ok (JVal.arr (xs.take n))
  | _ => .error "TypeError: unsubscriptable"

/-- The numbered comment lines of the prompt
(src/summarizer.py lines 33-35): `enumerate(comments[:5], 1)` with each body
truncated to 200 characters. -/
def commentLines (i : Nat) : List AList → Except String String
  | [] => .ok ""
  | c :: rest => do
      let b ← keyGet c "body"
      let b2 ← pySlice b 200
      let restLines ← commentLines (i + 1) rest
      .ok (toString i ++ ". " ++ pyStr b2 ++ "...\n" ++ restLines)

/-- `content_to_summarize` of `PostSummarizer.summarize_post`
(src/summarizer.py lines 27-35): title line, content line when the content
field is truthy, and the comment block only when `include_comments` is true
and the supplied comment list is truthy (non-`None` and non-empty). -/
def buildContent (post : AList) (include_comments : Bool)
    (comments : Option (List AList)) : Except String String := do
  let title ← keyGet post "title"
  let base := "Title: " ++ pyStr title ++ "\n"
  let contentVal ← keyGet post "content"
  let base := if pyTruthy contentVal
    then base ++ "Content: " ++ pyStr contentVal ++ "\n" else base
  let commentsTruthy := match comments with
    | some cs => !cs.isEmpty
    | none => false
  if include_comments && commentsTruthy then
    let lines ← commentLines 1 ((comments.getD []).take 5)
    .ok (base ++ "\nTop Comments:\n" ++ lines)
  else
    .ok base

/-- The full prompt sent for one post (src/summarizer.py lines 38-52):
system prompt plus the triple-quoted instruction text around the content. -/
def summaryPromptText (content : String) : String :=
  "You are a helpful assistant that summarizes Reddit posts concisely and accurately.\n\n" ++
  "\n            Please provide a concise summary of this Reddit post. Include:\n            1. Main topic/subject\n            2. Key points discussed\n            3. Overall sentiment/tone\n            4. Any important details or conclusions\n            \n            Post content:\n            " ++
  content ++
  "\n            \n            Provide a summary in 2-3 sentences.\n            "

/-- `PostSummarizer.summarize_post` (src/summarizer.py lines 13-68).  The
`llm` oracle models `self.model.generate_content(...).text`; `now` models
`_get_current_timestamp()` (the current local time rendered with
`"%Y-%m-%d %H:%M:%S"`).  On success the post copy gains `summary` and
`summarized_at`; on any exception inside the `try` block the handler prints
`post['id']` (re-raising `KeyError` when that key is absent) and returns a
copy with `summary` set to the fixed sentinel and nothing else touched. -/
def summarize_post (llm : String → Except String String) (now : String)
    (post : AList) (include_comments : Bool)
    (comments : Option (List AList)) : Except String AList :=
  let attempt : Except String AList := do
    let content ← buildContent post include_comments comments
    let response ← llm (summaryPromptText content)
    .ok (dinsert (dinsert post "summary" (JVal.str (pyStrip response)))
          "summarized_at" (JVal.str now))
  match attempt with
  | .ok r => .ok r
  | .error _ =>
      match dlookup post "id" with
      | none => .error (keyErrorMsg "id")
      | some _ =>
          .ok (dinsert post "summary"
                (JVal.str "Error: Could not generate summary"))

/-- `PostSummarizer.summarize_multiple_posts` (src/summarizer.py
lines 70-95): for each post in order, log `post['title'][:50]`, set
`comments` to the placeholder empty list when `include_comments` is true
(and `None` otherwise: the comment fetch is a no-op placeholder), call
`summarize_post`, and collect the results in order. -/
def summarize_multiple_posts (llm : String → Except String String)
    (now : String) : List AList → Bool → Except String (List AList)
  | [], _ => .ok []
  | post :: rest, include_comments => do
      let title ← keyGet post "title"
      let _ ← pySlice title 50
      let comments : Option (List AList) :=
        if include_comments then some [] else none
      let r ← summarize_post llm now post include_comments comments
      let rs ← summarize_multiple_posts llm now rest include_comments
      .ok (r :: rs)

/-- The numbered per-post block of the digest (src/summarizer.py
lines 114-122), `enumerate(posts[:10], 1)`. -/
def digestEntries (i : Nat) : List AList → Except String String
  | [] => .ok ""
  | post :: rest => do
      let title ← keyGet post "title"
      let sub ← keyGet post "subreddit"
      let score ← keyGet post "score"
      let nc ← keyGet post "num_comments"
      let summaryLine :=
        match dlookup post "summary" with
        | some s => "   Summary: " ++ pyStr s ++ "\n"
        | none => ""
      let pl ← keyGet post "permalink"
      let restE ← digestEntries (i + 1) rest
      .ok (toString i ++ ". **" ++ pyStr title ++ "**\n" ++
           "   Subreddit: r/" ++ pyStr sub ++ "\n" ++
           "   Score: " ++ pyStr score ++ " | Comments: " ++ pyStr nc ++ "\n" ++
           summaryLine ++
           "   Link: " ++ pyStr pl ++ "\n\n" ++ restE)

/-- The full digest prompt (src/summarizer.py lines 125-139). -/
def digestPromptText (digest_content : String) : String :=
  "You are a helpful assistant that creates insightful summaries of Reddit discussions.\n\n" ++
  "\n            Based on these Reddit posts, provide an overall summary highlighting:\n            1. Main themes or topics discussed\n            2. Notable trends or patterns\n            3. Most engaging or controversial posts\n            4. Key insights or takeaways\n            \n            Posts data:\n            " ++
  digest_content ++
  "\n            \n            Provide a comprehensive but concise summary in 3-4 paragraphs.\n            "

/-- `PostSummarizer.create_digest` (src/summarizer.py lines 97-153): the
fixed string for an empty list; otherwise the numbered listing of the first
10 posts, an overall narrative from the language model, and the assembled
digest; any exception is caught and rendered as an error string embedding
the failure reason. -/
def create_digest (llm : String → Except String String) (now : String)
    (posts : List AList) : String :=
  let attempt : Except String String :=
    if posts.isEmpty then .ok "No posts to summarize."
    else do
      let entries ← digestEntries 1 (posts.take 10)
      let digest_content := "Reddit Posts Summary:\n\n" ++ entries
      let overall ← llm (digestPromptText digest_content)
      .ok ("# Reddit Posts Digest\n\n" ++
           "**Generated on:** " ++ now ++ "\n\n" ++
           "## Overall Summary\n" ++ pyStrip overall ++ "\n\n" ++
           "## Individual Posts\n" ++ digest_content)
  match attempt with
  | .ok s => s
  | .error e => "Error creating digest: " ++ e

/-! ## Command front end (src/main.py) -/

/-- Python `int(...)` on a digit string: every character must be a decimal
digit (transcoded via `pyCharDecimal`) and the value is read base 10; a
digit without a decimal value (e.g. the superscript two) makes `int` raise
`ValueError`, modelled as `none`. -/
def pyIntParse (s : String) : Option Nat :=
  (s.data.mapM pyCharDecimal).map
    (fun ds => ds.foldl (fun a d => a * 10 + d) 0)

/-- Python `float(...)` on a string of digits and dots: the decimal digits
are transcoded to ASCII (`pyCharDecimal`) and the literal must contain at
most one dot; a second dot or a digit without a decimal value raises
`ValueError` (`none`).  Gives the exact decimal `m / 10 ^ e`. -/
def pyFloatParse (s : String) : Option (Int × Nat) :=
  match pySplitDot s with
  | [ip] => (pyIntParse ip).map (fun n => ((n : Int), 0))
  | [ip, fp] =>
      (pyIntParse (ip ++ fp)).map (fun n => ((n : Int), fp.data.length))
  | _ => none

/-- The `--value` coercion of the `set-config` command (src/main.py
lines 203-209): `true`/`false` (case-insensitively) become booleans; a
string of Unicode digits is passed to `int(...)`; a string whose
dot-stripped form is all Unicode digits is passed to `float(...)`; both
raise an uncaught `ValueError` when the digits have no decimal value or
(for `float`) the string has two or more dots; anything else stays a
string. -/
def coerceValue (value : String) : Except String JVal :=
  if pyLower value = "true" || pyLower value = "false" then
    .ok (JVal.bool (pyLower value = "true"))
  else if pyIsdigit value then
    match pyIntParse value with
    | some n => .ok (JVal.int n)
    | none => .error "ValueError"
  else if pyIsdigit (pyRemoveDots value) then
    match pyFloatParse value with
    | some me => .ok (JVal.float me.1 me.2)
    | none => .error "ValueError"
  else .ok (JVal.str value)

/-- The `set-config` command (src/main.py lines 191-212): reject a missing
or empty `--key`/`--value` before doing anything (`none`), otherwise coerce
the value and store it via `Config.set`. -/
def set_config (writeOk : Bool) (config : AList) (fs : FS)
    (config_file : String) (key value : String) :
    Option (Except String (AList × FS)) :=
  if key = "" || value = "" then none
  else some
    (match coerceValue value with
     | .error e => .error e
     | .ok v => configSet writeOk config fs config_file key v)

theorem pySplitDot_go_ne_nil (cs : List Char) :
    ∀ acc, pySplitDot.go cs acc ≠ [] := by
  induction cs with
  | nil =>
      intro acc h
      simp [pySplitDot.go] at h
  | cons c rest ih =>
      intro acc h
      by_cases hc : c = '.'
      · simp [pySplitDot.go, hc] at h
      · rw [pySplitDot.go] at h
        simp only [hc, if_false] at h
        exact ih _ h

/-- `split` always returns at least one piece. -/
theorem pySplitDot_ne_nil (s : String) : pySplitDot s ≠ [] :=
  pySplitDot_go_ne_nil s.data []

/-- An all-digit string contains no dot, so removing dots keeps it
all-digit. -/
theorem pyIsdigit_removeDots (s : String) (h : pyIsdigit s = true) :
    pyIsdigit (pyRemoveDots s) = true := by
  have hall : s.data.all pyCharIsDigit = true := by
    simp only [pyIsdigit, Bool.and_eq_true] at h
    exact h.2
  have hfix : s.data.filter (fun c => decide (c ≠ '.')) = s.data := by
    apply List.filter_eq_self.mpr
    intro c hc
    have hdig := List.all_eq_true.mp hall c hc
    simp only [decide_eq_true_eq]
    intro hceq
    subst hceq
    rw [show pyCharIsDigit '.' = false from by decide] at hdig
    cases hdig
  have hmk : pyRemoveDots s = String.mk s.data := by
    rw [pyRemoveDots, hfix]
  rw [hmk]
  exact h

/-- The characters of the concatenation of two strings. -/
theorem string_data_append (a b : String) : (a ++ b).data = a.data ++ b.data := by
  cases a
  cases b
  rfl

/-- The pieces of a dot-split, joined back with dots. -/
def joinDot : List (List Char) → List Char
  | [] => []
  | [x] => x
  | x :: y :: rest => x ++ '.' :: joinDot (y :: rest)

theorem pySplitDot_go_join (cs : List Char) : ∀ acc,
    joinDot ((pySplitDot.go cs acc).map String.data) = acc.reverse ++ cs := by
  induction cs with
  | nil =>
      intro acc
      simp [pySplitDot.go, joinDot]
  | cons c rest ih =>
      intro acc
      by_cases hc : c = '.'
      · subst hc
        rw [pySplitDot.go]
        simp only [if_pos rfl, List.map_cons]
        rcases hgo : pySplitDot.go rest [] with _ | ⟨p, ps⟩
        · exact absurd hgo (pySplitDot_go_ne_nil rest [])
        · have hrest := ih []
          rw [hgo] at hrest
          simp only [List.map_cons, joinDot]
          simp only [List.map_cons] at hrest
          rw [hrest]
          simp
      · rw [pySplitDot.go]
        simp only [hc, if_false]
        rw [ih (c :: acc)]
        simp

/-- Rejoining the pieces of `split('.')` gives back the string. -/
theorem pySplitDot_join (s : String) :
    joinDot ((pySplitDot s).map String.data) = s.data := by
  have h := pySplitDot_go_join s.data []
  simpa using h

theorem pySplitDot_go_no_dot (cs : List Char) : ∀ acc,
    (∀ c ∈ acc, c ≠ '.') →
    ∀ p ∈ pySplitDot.go cs acc, ∀ c ∈ p.data, c ≠ '.' := by
  induction cs with
  | nil =>
      intro acc hacc p hp c hc
      simp only [pySplitDot.go, List.mem_singleton] at hp
      subst hp
      exact hacc c (by simpa using hc)
  | cons c0 rest ih =>
      intro acc hacc p hp c hc
      by_cases hc0 : c0 = '.'
      · subst hc0
        rw [pySplitDot.go, if_pos rfl] at hp
        rcases List.mem_cons.mp hp with hp2 | hp2
        · subst hp2
          exact hacc c (by simpa using hc)
        · exact ih [] (by intro x hx; cases hx) p hp2 c hc
      · rw [pySplitDot.go, if_neg hc0] at hp
        refine ih (c0 :: acc) ?_ p hp c hc
        intro x hx
        rcases List.mem_cons.mp hx with h1 | h2
        · subst h1; exact hc0
        · exact hacc x h2

/-- No piece of `split('.')` contains a dot. -/
theorem pySplitDot_no_dot (s : String) (p : String) (hp : p ∈ pySplitDot s) :
    ∀ c ∈ p.data, c ≠ '.' :=
  pySplitDot_go_no_dot s.data [] (by intro x hx; cases hx) p hp

theorem mapM_pyCharDecimal_isSome (l : List Char)
    (h : ∀ c ∈ l, (pyCharDecimal c).isSome = true) :
    ∃ ds, l.mapM pyCharDecimal = some ds := by
  induction l with
  | nil => exact ⟨[], rfl⟩
  | cons c rest ih =>
      obtain ⟨d, hd⟩ : ∃ d, pyCharDecimal c = some d := by
        have hc := h c (List.mem_cons_self c rest)
        cases hpc : pyCharDecimal c with
        | none => rw [hpc] at hc; cases hc
        | some d => exact ⟨d, rfl⟩
      obtain ⟨ds, hds⟩ := ih (fun c2 h2 => h c2 (List.mem_cons_of_mem c h2))
      refine ⟨d :: ds, ?_⟩
      rw [List.mapM_cons, hd, hds]
      rfl

theorem mapM_pyCharDecimal_none (l : List Char) (c : Char) (hc : c ∈ l)
    (hnone : pyCharDecimal c = none) : l.mapM pyCharDecimal = none := by
  induction l with
  | nil => cases hc
  | cons c2 rest ih =>
      rw [List.mapM_cons]
      rcases List.mem_cons.mp hc with h1 | h2
      · subst h1
        rw [hnone]
        rfl
      · cases hpc : pyCharDecimal c2 with
        | none => rfl
        | some d =>
            have hrest := ih h2
            rw [hrest]
            rfl

/-- `int()` succeeds on a string of decimal digits. -/
theorem pyIntParse_isSome (s : String)
    (h : ∀ c ∈ s.data, (pyCharDecimal c).isSome = true) :
    ∃ n, pyIntParse s = some n := by
  obtain ⟨ds, hds⟩ := mapM_pyCharDecimal_isSome s.data h
  exact ⟨_, by rw [pyIntParse, hds]; rfl⟩

/-- `int()` raises on a string containing a character without a decimal
value. -/
theorem pyIntParse_none (s : String) (c : Char) (hc : c ∈ s.data)
    (hnone : pyCharDecimal c = none) : pyIntParse s = none := by
  rw [pyIntParse, mapM_pyCharDecimal_none s.data c hc hnone]
  rfl

theorem except_bind_ok {α β : Type} (a : α) (f : α → Except String β) :
    (Except.ok a : Except String α) >>= f = f a := rfl

theorem except_bind_error {α β : Type} (e : String)
    (f : α → Except String β) :
    (Except.error e : Except String α) >>= f = Except.error e := rfl

theorem except_pure {α : Type} (a : α) :
    (pure a : Except String α) = Except.ok a := rfl

/-! ## Claim theorems -/

/-- C1: for every sequence of post records, every filename and every
filesystem, if `save_posts` succeeds (returns a non-empty path) then
`load_posts` on the same filename returns a sequence equal to the input,
with order and all field values preserved.  Field values (including
non-ASCII strings, stored literally since `ensure_ascii=False`) are carried
verbatim inside the stored JSON document, so preservation is exact. -/
theorem save_load_roundtrip (writeOk : Bool) (data_dir filename now : String)
    (fs : FS) (posts : List JVal)
    (h : (save_posts writeOk data_dir fs posts (some filename) now).1 ≠ "") :
    load_posts (save_posts writeOk data_dir fs posts (some filename) now).2
      data_dir filename = JVal.arr posts := by
  cases writeOk with
  | false => exact absurd rfl h
  | true => simp [save_posts, load_posts, fsWrite]

theorem save_load_roundtrip_witness :
    load_posts (save_posts true "data" (fun _ => none)
        [JVal.obj [("title", JVal.str "한국어 제목 🚀"), ("score", JVal.int 3)]]
        (some "t.json") "20240101_000000").2 "data" "t.json"
      = JVal.arr [JVal.obj [("title", JVal.str "한국어 제목 🚀"),
          ("score", JVal.int 3)]] :=
  save_load_roundtrip true "data" "t.json" "20240101_000000" (fun _ => none)
    [JVal.obj [("title", JVal.str "한국어 제목 🚀"), ("score", JVal.int 3)]]
    (by decide)

/-- C2: for every defaults dict `d` and duplicate-free user dict `u`, the
merge keeps every key of `d` absent from `u` unchanged; a key present in
both recurses when both values are dicts, and takes the user value
otherwise. -/
theorem merge_per_key (d u : AList) (k : String) (hnd : keyDup u = false) :
    (dlookup u k = none → dlookup (mergeConfigs d u) k = dlookup d k)
    ∧ (∀ dd uu, dlookup d k = some (JVal.obj dd) →
        dlookup u k = some (JVal.obj uu) →
        dlookup (mergeConfigs d u) k = some (JVal.obj (mergeConfigs dd uu)))
    ∧ (∀ w, dlookup u k = some w →
        (∀ dd uu, dlookup d k = some (JVal.obj dd) → w = JVal.obj uu → False) →
        dlookup (mergeConfigs d u) k = some w) := by
  refine ⟨fun h => merge_lookup_not_mem u d k h, ?_, ?_⟩
  · intro dd uu hd hu
    rw [merge_lookup_mem u d k _ hnd hu, hd, mergeVal_obj]
  · intro w hu hno
    rw [merge_lookup_mem u d k _ hnd hu, mergeVal_not_both_obj _ _ hno]

theorem merge_per_key_witness :
    dlookup (mergeConfigs [("a", JVal.obj [("x", JVal.int 1)])]
        [("a", JVal.obj [("y", JVal.int 3)])]) "a"
      = some (JVal.obj (mergeConfigs [("x", JVal.int 1)]
          [("y", JVal.int 3)])) :=
  (merge_per_key [("a", JVal.obj [("x", JVal.int 1)])]
      [("a", JVal.obj [("y", JVal.int 3)])] "a" rfl).2.1
    [("x", JVal.int 1)] [("y", JVal.int 3)] rfl rfl

/-- C4: `get(path, default)` returns the stored value when every segment
resolves through nested mappings (`Stored`), and returns the supplied
default whenever any segment is absent or a non-mapping is indexed.  The
embedding of `get` is a total function — the `KeyError`/`TypeError` of the
source are caught and become the `default` branch, so `get` never raises. -/
theorem get_resolves_or_default (config : AList) (key_path : String)
    (default : JVal) :
    (∀ v, Stored (JVal.obj config) (pySplitDot key_path) v →
        configGet config key_path default = v)
    ∧ ((∀ v, ¬ Stored (JVal.obj config) (pySplitDot key_path) v) →
        configGet config key_path default = default) := by
  constructor
  · intro v hv
    rw [configGet, (getPath_eq_some_iff_Stored _ _ _).mpr hv]
    rfl
  · intro hnone
    rcases hg : getPath (JVal.obj config) (pySplitDot key_path) with _ | v
    · rw [configGet, hg]
      rfl
    · exact absurd ((getPath_eq_some_iff_Stored _ _ _).mp hg) (hnone v)

theorem get_resolves_or_default_witness :
    configGet [("a", JVal.obj [("b", JVal.int 7)])] "a.b" (JVal.str "dflt")
      = JVal.int 7 :=
  (get_resolves_or_default [("a", JVal.obj [("b", JVal.int 7)])] "a.b"
      (JVal.str "dflt")).1 (JVal.int 7)
    (Stored.cons rfl (Stored.cons rfl (Stored.nil (JVal.int 7))))

/-- C7: `create_digest` applied to the empty list returns exactly the
literal string, before any language-model call. -/
theorem create_digest_empty (llm : String → Except String String)
    (now : String) : create_digest llm now [] = "No posts to summarize." :=
  rfl

/-- C8: `get_post_comments` returns at most `limit` records; every returned
record is built (`commentData`) from a raw comment that has a `body`
(comment-like objects lacking one are skipped); and any error from the
underlying client yields the empty list instead of propagating. -/
theorem get_post_comments_spec
    (client : String → Except String (List RawComment))
    (post_id : String) (limit : Nat) :
    (∀ e, client post_id = .error e →
        get_post_comments client post_id limit = [])
    ∧ (∀ raw, client post_id = .ok raw →
        (get_post_comments client post_id limit).length ≤ limit
        ∧ ∀ r2 ∈ get_post_comments client post_id limit,
            ∃ c ∈ raw, ∃ b, c.body = some b ∧ r2 = commentData c b) := by
  constructor
  · intro e he
    simp [get_post_comments, he]
  · intro raw hr
    constructor
    · simp only [get_post_comments, hr]
      calc ((raw.take limit).filterMap
              (fun c => c.body.map (commentData c))).length
          ≤ (raw.take limit).length := List.length_filterMap_le _ _
        _ ≤ limit := by simp [List.length_take]
    · intro r2 hmem
      simp only [get_post_comments, hr] at hmem
      rw [List.mem_filterMap] at hmem
      obtain ⟨c, hc, hb⟩ := hmem
      refine ⟨c, List.take_subset _ _ hc, ?_⟩
      cases hcb : c.body with
      | none => rw [hcb] at hb; cases hb
      | some b =>
          rw [hcb] at hb
          cases hb
          exact ⟨b, rfl, rfl⟩

theorem get_post_comments_spec_witness :
    (get_post_comments
        (fun _ => .ok
          [⟨none, JVal.str "m1", JVal.int 1, JVal.int 0, some "a"⟩,
           ⟨some (JVal.str "hello"), JVal.str "c1", JVal.int 5, JVal.int 0,
             none⟩,
           ⟨some (JVal.str "extra"), JVal.str "c2", JVal.int 2, JVal.int 0,
             some "b"⟩])
        "p" 2).length ≤ 2 :=
  ((get_post_comments_spec
      (fun _ => .ok
        [⟨none, JVal.str "m1", JVal.int 1, JVal.int 0, some "a"⟩,
         ⟨some (JVal.str "hello"), JVal.str "c1", JVal.int 5, JVal.int 0,
           none⟩,
         ⟨some (JVal.str "extra"), JVal.str "c2", JVal.int 2, JVal.int 0,
           some "b"⟩])
      "p" 2).2 _ rfl).1

/-- C9 (counterexample): the claim says the `--value` coercion never fails,
but `"1.2.3"` passes the dot-stripped `isdigit` check and then
`float("1.2.3")` raises `ValueError`, which nothing catches. -/
theorem coerceValue_multidot_raises :
    coerceValue "1.2.3" = .error "ValueError" := rfl

/-- C9 (amended): the stored value is the boolean when the string spells
true or false case-insensitively.  A string of Unicode digits goes to
`int()`: when every character is a decimal digit the integer read base 10
is stored, and when some digit has no decimal value (a superscript or
circled digit) `int()` raises an uncaught `ValueError` and nothing is
stored.  A string whose dot-stripped form is all Unicode digits goes to
`float()`: with at most one dot and all-decimal digits the exact decimal is
stored; two or more dots, or a digit without a decimal value, raise an
uncaught `ValueError`.  Any other string is stored unchanged. -/
theorem coerceValue_spec (value : String) :
    (pyLower value = "true" → coerceValue value = .ok (JVal.bool true))
    ∧ (pyLower value = "false" → coerceValue value = .ok (JVal.bool false))
    ∧ (pyLower value ≠ "true" → pyLower value ≠ "false" →
        pyIsdigit value = true →
        ((∀ c ∈ value.data, (pyCharDecimal c).isSome = true) →
            ∃ n, pyIntParse value = some n
              ∧ coerceValue value = .ok (JVal.int n))
        ∧ (∀ c ∈ value.data, pyCharDecimal c = none →
            coerceValue value = .error "ValueError"))
    ∧ (pyLower value ≠ "true" → pyLower value ≠ "false" →
        pyIsdigit value = false → pyIsdigit (pyRemoveDots value) = true →
        (((pySplitDot value).length ≤ 2
            ∧ ∀ c ∈ value.data, c ≠ '.' → (pyCharDecimal c).isSome = true) →
            ∃ m e, pyFloatParse value = some (m, e)
              ∧ coerceValue value = .ok (JVal.float m e))
        ∧ (3 ≤ (pySplitDot value).length →
            coerceValue value = .error "ValueError")
        ∧ (∀ c ∈ value.data, c ≠ '.' → pyCharDecimal c = none →
            coerceValue value = .error "ValueError"))
    ∧ (pyLower value ≠ "true" → pyLower value ≠ "false" →
        pyIsdigit (pyRemoveDots value) = false →
        coerceValue value = .ok (JVal.str value)) := by
  refine ⟨?_, ?_, ?_, ?_, ?_⟩
  · intro h
    simp [coerceValue, h]
  · intro h
    have hne : pyLower value ≠ "true" := by
      rw [h]
      decide
    simp [coerceValue, h, hne]
  · intro h1 h2 hd
    constructor
    · intro hall
      obtain ⟨n, hn⟩ := pyIntParse_isSome value hall
      exact ⟨n, hn, by simp [coerceValue, h1, h2, hd, hn]⟩
    · intro c hc hnone
      have hn : pyIntParse value = none := pyIntParse_none value c hc hnone
      simp [coerceValue, h1, h2, hd, hn]
  · intro h1 h2 hd0 hd1
    have hjoin := pySplitDot_join value
    refine ⟨?_, ?_, ?_⟩
    · rintro ⟨hlen, hall⟩
      rcases hs : pySplitDot value with _ | ⟨ip, _ | ⟨fp, _ | ⟨x, xs⟩⟩⟩
      · exact absurd hs (pySplitDot_ne_nil value)
      · rw [hs] at hjoin
        simp only [List.map_cons, List.map_nil, joinDot] at hjoin
        have hip : ∀ c ∈ ip.data, (pyCharDecimal c).isSome = true := by
          intro c hc
          refine hall c (by rw [← hjoin]; exact hc) ?_
          exact pySplitDot_no_dot value ip (by rw [hs]; simp) c hc
        obtain ⟨n, hn⟩ := pyIntParse_isSome ip hip
        refine ⟨(n : Int), 0, ?_, ?_⟩
        · simp [pyFloatParse, hs, hn]
        · simp [coerceValue, h1, h2, hd0, hd1, pyFloatParse, hs, hn]
      · rw [hs] at hjoin
        simp only [List.map_cons, List.map_nil, joinDot] at hjoin
        have hcat : ∀ c ∈ (ip ++ fp).data, (pyCharDecimal c).isSome = true := by
          intro c hc
          rw [string_data_append] at hc
          have hmem : c ∈ value.data := by
            rw [← hjoin]
            rcases List.mem_append.mp hc with h | h
            · exact List.mem_append.mpr (Or.inl h)
            · exact List.mem_append.mpr (Or.inr (List.mem_cons_of_mem _ h))
          refine hall c hmem ?_
          rcases List.mem_append.mp hc with h | h
          · exact pySplitDot_no_dot value ip (by rw [hs]; simp) c h
          · exact pySplitDot_no_dot value fp (by rw [hs]; simp) c h
        obtain ⟨n, hn⟩ := pyIntParse_isSome (ip ++ fp) hcat
        refine ⟨(n : Int), fp.data.length, ?_, ?_⟩
        · simp [pyFloatParse, hs, hn]
        · simp [coerceValue, h1, h2, hd0, hd1, pyFloatParse, hs, hn]
      · rw [hs] at hlen
        simp only [List.length_cons] at hlen
        omega
    · intro h3
      rcases hs : pySplitDot value with _ | ⟨ip, _ | ⟨fp, _ | ⟨x, xs⟩⟩⟩
      · exact absurd hs (pySplitDot_ne_nil value)
      · rw [hs] at h3
        simp at h3
      · rw [hs] at h3
        simp at h3
      · simp [coerceValue, h1, h2, hd0, hd1, pyFloatParse, hs]
    · intro c hc hcne hnone
      rcases hs : pySplitDot value with _ | ⟨ip, _ | ⟨fp, _ | ⟨x, xs⟩⟩⟩
      · exact absurd hs (pySplitDot_ne_nil value)
      · rw [hs] at hjoin
        simp only [List.map_cons, List.map_nil, joinDot] at hjoin
        have hcin : c ∈ ip.data := by rw [hjoin]; exact hc
        have hn : pyIntParse ip = none := pyIntParse_none ip c hcin hnone
        simp [coerceValue, h1, h2, hd0, hd1, pyFloatParse, hs, hn]
      · rw [hs] at hjoin
        simp only [List.map_cons, List.map_nil, joinDot] at hjoin
        have hcin : c ∈ (ip ++ fp).data := by
          rw [string_data_append]
          rw [← hjoin] at hc
          rcases List.mem_append.mp hc with h | h
          · exact List.mem_append.mpr (Or.inl h)
          · rcases List.mem_cons.mp h with h4 | h4
            · exact absurd h4 hcne
            · exact List.mem_append.mpr (Or.inr h4)
        have hn : pyIntParse (ip ++ fp) = none :=
          pyIntParse_none (ip ++ fp) c hcin hnone
        simp [coerceValue, h1, h2, hd0, hd1, pyFloatParse, hs, hn]
      · simp [coerceValue, h1, h2, hd0, hd1, pyFloatParse, hs]
  · intro h1 h2 hd1
    have hd0 : pyIsdigit value = false := by
      cases hv : pyIsdigit value with
      | false => rfl
      | true =>
          exact absurd (pyIsdigit_removeDots value hv) (by rw [hd1]; decide)
    simp [coerceValue, h1, h2, hd0, hd1]

theorem coerceValue_spec_witness :
    coerceValue "٣٤" = .ok (JVal.int 34) := by
  obtain ⟨n, hn, hc⟩ := ((coerceValue_spec "٣٤").2.2.1 (by decide) (by decide)
    (by decide)).1 (by decide)
  rw [show pyIntParse "٣٤" = some 34 from rfl, Option.some.injEq] at hn
  subst hn
  exact hc

/-- C10: when the config file does not exist, `load_config` writes the
compiled-in defaults to it (when the write itself succeeds) and returns the
defaults in memory, leaving every other path untouched; when the file
exists but reading or parsing fails, the defaults are used and the
filesystem is not modified at all. -/
theorem load_config_effects (writeOk : Bool) (fs : FS) (config_file : String) :
    (fs config_file = none →
        (load_config writeOk fs config_file).1 = default_config
        ∧ (writeOk = true →
            (load_config writeOk fs config_file).2 config_file
              = some (some (JVal.obj default_config)))
        ∧ (∀ p, p ≠ config_file →
            (load_config writeOk fs config_file).2 p = fs p))
    ∧ (fs config_file = some none →
        load_config writeOk fs config_file = (default_config, fs)) := by
  constructor
  · intro h
    refine ⟨by simp [load_config, h], ?_, ?_⟩
    · intro hw
      subst hw
      simp [load_config, h, save_config, fsWrite]
    · intro p hp
      cases writeOk with
      | false => simp [load_config, h, save_config]
      | true => simp [load_config, h, save_config, fsWrite, hp]
  · intro h
    simp [load_config, h]

theorem load_config_effects_witness :
    (load_config true (fun _ => none) "config.json").1 = default_config :=
  ((load_config_effects true (fun _ => none) "config.json").1 rfl).1

/-- C3 (counterexample): `set("a.b", 1)` on a configuration whose key `a`
holds the non-mapping `5` raises `TypeError` (at `key not in config` /
the item assignment) instead of creating an intermediate mapping and
setting the leaf, so `set` does not succeed for every dotted path. -/
theorem set_nonmapping_raises :
    configSet true [("a", JVal.int 5)] (fun _ => none) "config.json" "a.b"
      (JVal.int 1) = .error "TypeError" := rfl

/-- C3 (amended): whenever `set(path, value)` succeeds — which it does
exactly when every already-present intermediate segment resolves to a
mapping, absent segments being created as empty mappings — a subsequent
`get(path)` returns the value; the entire configuration is persisted to the
config file (when the write itself succeeds) and no other file is touched;
and for duplicate-free dicts and a non-mapping value the persisted file is
reloadable: `load_config` (which merges the file over the defaults) yields
a configuration whose `get(path)` still returns the value.  When an
intermediate segment resolves to a non-mapping, `set` raises instead
(see the counterexample). -/
theorem set_get_persist (writeOk : Bool) (config : AList) (fs : FS)
    (config_file key_path : String) (v : JVal) (c' : AList) (fs' : FS)
    (h : configSet writeOk config fs config_file key_path v = .ok (c', fs')) :
    (∀ default, configGet c' key_path default = v)
    ∧ (writeOk = true → fs' config_file = some (some (JVal.obj c')))
    ∧ (∀ p, p ≠ config_file → fs' p = fs p)
    ∧ (writeOk = true → wfAlong c' (pySplitDot key_path) = true →
        v.isObj = false →
        ∀ (writeOk2 : Bool) (default : JVal),
          configGet (load_config writeOk2 fs' config_file).1 key_path default
            = v) := by
  rcases hs : setPath config (pySplitDot key_path) v with e | c2
  · simp only [configSet, hs] at h
    cases h
  · simp only [configSet, hs, Except.ok.injEq, Prod.mk.injEq] at h
    obtain ⟨hc, hfs⟩ := h
    subst hc
    subst hfs
    refine ⟨?_, ?_, ?_, ?_⟩
    · intro dflt
      rw [configGet, getPath_setPath _ _ _ _ hs]
      rfl
    · intro hw
      subst hw
      simp [save_config, fsWrite]
    · intro p hp
      cases writeOk with
      | false => simp [save_config]
      | true => simp [save_config, fsWrite, hp]
    · intro hw hwf hobj writeOk2 dflt
      subst hw
      have hcf : (save_config true c2 fs config_file) config_file
          = some (some (JVal.obj c2)) := by
        simp [save_config, fsWrite]
      have hload : (load_config writeOk2
          (save_config true c2 fs config_file) config_file).1
          = mergeConfigs default_config c2 := by
        simp only [load_config, hcf]
      rw [hload, configGet,
        getPath_merge _ default_config c2 v hwf
          (getPath_setPath _ _ _ _ hs) hobj]
      rfl

theorem set_get_persist_witness :
    configGet (load_config false
        (save_config true [("a", JVal.obj [("b", JVal.int 5)])]
          (fun _ => none) "config.json") "config.json").1 "a.b" JVal.null
      = JVal.int 5 :=
  (set_get_persist true [] (fun _ => none) "config.json" "a.b" (JVal.int 5)
      [("a", JVal.obj [("b", JVal.int 5)])]
      (save_config true [("a", JVal.obj [("b", JVal.int 5)])]
        (fun _ => none) "config.json") rfl).2.2.2 rfl rfl rfl false JVal.null

/-- C5: for every list of posts (post records carry a string title) and for
both values of the `include_comments` flag, the batch summarizer applies
the single-post summarizer to each post sequentially in input order
(`mapM`), and comments are never attached: the per-post call is the one
with `include_comments = false` and no comments, so no prompt ever contains
a comment block, and the batch behaves identically for both flag values
(when the flag is true the placeholder comment list is empty, which the
single-post path treats exactly like `None`). -/
theorem batch_summarize_spec (llm : String → Except String String)
    (now : String) (posts : List AList)
    (h : ∀ p ∈ posts, ∃ t, dlookup p "title" = some (JVal.str t)) :
    summarize_multiple_posts llm now posts true
      = summarize_multiple_posts llm now posts false
    ∧ ∀ b, summarize_multiple_posts llm now posts b
        = posts.mapM (fun p => summarize_post llm now p false none) := by
  have hflag : ∀ (p : AList) (b : Bool),
      summarize_post llm now p b (if b then some [] else none)
        = summarize_post llm now p false none := by
    intro p b
    cases b <;> rfl
  have hmain : ∀ (ps : List AList),
      (∀ p ∈ ps, ∃ t, dlookup p "title" = some (JVal.str t)) →
      ∀ b, summarize_multiple_posts llm now ps b
        = ps.mapM (fun p => summarize_post llm now p false none) := by
    intro ps
    induction ps with
    | nil =>
        intro _ b
        rfl
    | cons p rest ih =>
        intro hps b
        obtain ⟨t, ht⟩ := hps p (List.mem_cons_self p rest)
        have hrest := ih (fun q hq => hps q (List.mem_cons_of_mem p hq)) b
        simp only [summarize_multiple_posts, keyGet, ht, List.mapM_cons,
          except_bind_ok, except_pure, pySlice, hflag p b, hrest]
  exact ⟨(hmain posts h true).trans (hmain posts h false).symm, hmain posts h⟩

theorem batch_summarize_spec_witness :
    summarize_multiple_posts (fun _ => .ok "S") "NOW"
      [[("id", JVal.str "1"), ("title", JVal.str "A"),
        ("content", JVal.str "")]] true
    = summarize_multiple_posts (fun _ => .ok "S") "NOW"
      [[("id", JVal.str "1"), ("title", JVal.str "A"),
        ("content", JVal.str "")]] false :=
  (batch_summarize_spec (fun _ => .ok "S") "NOW"
    [[("id", JVal.str "1"), ("title", JVal.str "A"),
      ("content", JVal.str "")]]
    (fun p hp => by
      rw [List.mem_singleton] at hp
      subst hp
      exact ⟨"A", rfl⟩)).1

/-- C6 (counterexample): on a post that already carries a `summarized_at`
field, a failing language-model call returns a copy that still contains
that field, contradicting the claim that the failure copy has no
`summarizedAt` field. -/
theorem summarize_failure_keeps_timestamp :
    summarize_post (fun _ => .error "boom") "NOW"
      [("id", JVal.str "x"), ("title", JVal.str "T"),
       ("content", JVal.str "C"), ("summarized_at", JVal.str "OLD")]
      false none
    = .ok [("id", JVal.str "x"), ("title", JVal.str "T"),
           ("content", JVal.str "C"), ("summarized_at", JVal.str "OLD"),
           ("summary", JVal.str "Error: Could not generate summary")]
    ∧ dlookup [("id", JVal.str "x"), ("title", JVal.str "T"),
           ("content", JVal.str "C"), ("summarized_at", JVal.str "OLD"),
           ("summary", JVal.str "Error: Could not generate summary")]
        "summarized_at" = some (JVal.str "OLD") :=
  ⟨rfl, rfl⟩

/-- C6 (amended): `summarize_post` never mutates its input (the embedding
is functional; the source copies the dict).  When the prompt content builds
successfully: on language-model success the result is the post with
`summary` (the stripped response) and `summarized_at` (the current local
timestamp string `now`, rendered by the source with `"%Y-%m-%d %H:%M:%S"`)
set, every other field preserved; on language-model failure (for a post
that has an `id` to log) the result is the post with `summary` set to the
fixed sentinel and every other field — including any pre-existing
`summarized_at`, which the claim said would be absent — preserved
unchanged; no `summarized_at` is added. -/
theorem summarize_post_spec (llm : String → Except String String)
    (now : String) (post : AList) (include_comments : Bool)
    (comments : Option (List AList)) (content : String)
    (hc : buildContent post include_comments comments = .ok content) :
    (∀ s, llm (summaryPromptText content) = .ok s →
        summarize_post llm now post include_comments comments
          = .ok (dinsert (dinsert post "summary" (JVal.str (pyStrip s)))
              "summarized_at" (JVal.str now))
        ∧ (∀ k, k ≠ "summary" → k ≠ "summarized_at" →
            dlookup (dinsert (dinsert post "summary" (JVal.str (pyStrip s)))
                "summarized_at" (JVal.str now)) k = dlookup post k)
        ∧ dlookup (dinsert (dinsert post "summary" (JVal.str (pyStrip s)))
            "summarized_at" (JVal.str now)) "summarized_at"
          = some (JVal.str now))
    ∧ (∀ e, llm (summaryPromptText content) = .error e →
        ∀ i, dlookup post "id" = some i →
        summarize_post llm now post include_comments comments
          = .ok (dinsert post "summary"
              (JVal.str "Error: Could not generate summary"))
        ∧ ∀ k, k ≠ "summary" →
            dlookup (dinsert post "summary"
                (JVal.str "Error: Could not generate summary")) k
              = dlookup post k) := by
  constructor
  · intro s hs
    refine ⟨?_, ?_, dlookup_dinsert_self _ _ _⟩
    · simp only [summarize_post, hc, hs, except_bind_ok]
    · intro k hk1 hk2
      rw [dlookup_dinsert_ne _ _ _ _ (fun he => hk2 he.symm),
        dlookup_dinsert_ne _ _ _ _ (fun he => hk1 he.symm)]
  · intro e he i hi
    refine ⟨?_, ?_⟩
    · simp only [summarize_post, hc, he, except_bind_ok, except_bind_error,
        hi]
    · intro k hk
      rw [dlookup_dinsert_ne _ _ _ _ (fun he2 => hk he2.symm)]

theorem summarize_post_spec_witness :
    summarize_post (fun _ => .error "x") "NOW"
      [("id", JVal.str "1"), ("title", JVal.str "T"),
       ("content", JVal.str "")] false none
    = .ok [("id", JVal.str "1"), ("title", JVal.str "T"),
           ("content", JVal.str ""),
           ("summary", JVal.str "Error: Could not generate summary")] :=
  ((summarize_post_spec (fun _ => .error "x") "NOW"
      [("id", JVal.str "1"), ("title", JVal.str "T"),
       ("content", JVal.str "")] false none "Title: T\n" rfl).2 "x" rfl
    (JVal.str "1") rfl).1

end RedditCrawler
